import Mathlib

/-!
Shallow embedding of `paddlenlp/transformers/semantic_indexing/modeling.py`
(classes `ErnieEncoder` and `ErnieDualEncoder`).

Tensors are modelled as nested lists of integers; the underlying `ernie`
backbone is an external dependency and is kept abstract as a function from
the run mode and the four input tensors to either a Python-level error or a
pair `(sequence_output, _)`.  Python object references (`self.query_ernie`,
`self.title_ernie`) are modelled as optional indices into a heap of encoder
objects, so that reference aliasing (`share_parameters=True`) and in-place
mutation are observable.  Fallible Python code (assertions, attribute
lookups, errors raised inside the backbone) is modelled with `Except`.
-/

/-- A 1-D tensor (a vector of scalars). -/
abbrev Tensor1 := List Int

/-- A 2-D tensor, e.g. `[batch, hidden]` embeddings or `[batch, seq]` ids. -/
abbrev Tensor2 := List (List Int)

/-- A 3-D tensor, e.g. the `[batch, seq, hidden]` sequence output. -/
abbrev Tensor3 := List (List (List Int))

/-- Python-level errors that the modelled code can raise. -/
inductive PyError where
  | assertionError (msg : String)
  | attributeError (msg : String)
  | runtimeError (msg : String)
deriving Repr, DecidableEq

/-- The mode a layer runs in: `training` is the `nn.Layer` training flag
(toggled by `eval()`), `gradEnabled` is false inside `paddle.no_grad()`. -/
structure Mode where
  training : Bool
  gradEnabled : Bool
deriving Repr, DecidableEq

/-- The external `ernie` backbone (imported from `..ernie.modeling`, outside
this file): a function from the run mode and the four inputs `input_ids,
token_type_ids, position_ids, attention_mask` to an error or the pair
`(sequence_output, pooled_output)` that `self.ernie(...)` returns. -/
structure Ernie where
  run : Mode → Tensor2 → Option Tensor2 → Option Tensor2 → Option Tensor2 →
        Except PyError (Tensor3 × Tensor2)

/-- A sublayer of the module tree, as seen by `self.apply`: either an
`nn.LayerNorm` carrying its epsilon constant, or any other layer. -/
inductive Sublayer where
  | layerNorm (epsilon : ℚ)
  | other (tag : String)
deriving Repr, DecidableEq

/-- The epsilon that `ErnieEncoder.init_weights` forces on every LayerNorm:
`1e-5` as an exact rational. -/
def layerNormFixedEpsilon : ℚ := 1 / 100000

/-- `ErnieEncoder`: wraps the `ernie` backbone; `sublayers` is the flattened
module tree that `self.apply` traverses. -/
structure ErnieEncoder where
  ernie : Ernie
  sublayers : List Sublayer

/-- The `init_weights` initialization hook: a LayerNorm sublayer gets its
`_epsilon` overwritten with `1e-5`; every other layer is left unchanged. -/
def ErnieEncoder.init_weights (layer : Sublayer) : Sublayer :=
  match layer with
  | Sublayer.layerNorm _ => Sublayer.layerNorm layerNormFixedEpsilon
  | l => l

/-- Checkpoint data for a pretrained model identifier: the backbone behaviour
and the sublayer tree (with the epsilons baked into the checkpoint config). -/
structure PretrainedData where
  ernie : Ernie
  sublayers : List Sublayer

/-- The `ErnieEncoder.__init__` constructor: stores the backbone and runs
`self.apply(self.init_weights)` over every sublayer of the module tree. -/
def ErnieEncoder.construct (ernie : Ernie) (checkpoint : List Sublayer) :
    ErnieEncoder :=
  { ernie := ernie, sublayers := checkpoint.map ErnieEncoder.init_weights }

/-- Modelled from the spec: `ErnieEncoder.from_pretrained` (inherited from the
pretrained-model base class, which is outside this file) resolves a model
identifier to its checkpoint data and builds the encoder through the
`__init__` constructor; loading the state dict restores weights only, so it
does not touch `_epsilon`. -/
def ErnieEncoder.from_pretrained (data : PretrainedData) : ErnieEncoder :=
  ErnieEncoder.construct data.ernie data.sublayers

/-- `ErnieEncoder.forward`: calls the backbone and returns the pooled
embedding `sequence_output[:, 0]` (the first token of every batch row). -/
def ErnieEncoder.forward (self : ErnieEncoder) (mode : Mode)
    (input_ids : Tensor2)
    (token_type_ids position_ids attention_mask : Option Tensor2) :
    Except PyError Tensor2 :=
  match self.ernie.run mode input_ids token_type_ids position_ids
      attention_mask with
  | Except.error e => Except.error e
  | Except.ok out => Except.ok (out.1.map (fun s => s.headD []))

/-- The state of an `ErnieDualEncoder` object.  `heap` holds the encoder
objects that were allocated; `query_ernie` and `title_ernie` are Python
references to them (None or an index into the heap), so aliasing is
represented by equal indices.  `rank` models the `self.rank` attribute:
`none` means the attribute was never assigned. -/
structure ErnieDualEncoder where
  heap : List ErnieEncoder
  query_ernie : Option Nat
  title_ernie : Option Nat
  use_cross_batch : Bool
  dropout : ℚ
  rank : Option Int
  training : Bool

/-- The `ErnieDualEncoder.__init__` constructor.  `pretrained` resolves model
identifiers to checkpoint data (the lookup performed by `from_pretrained`).
The query encoder is always built; with `share_parameters` the title
reference aliases the query encoder object, otherwise a separate title
encoder is built when a title model identifier is given, and the title
reference stays None when it is not.  `self.rank` is never assigned. -/
def ErnieDualEncoder.init (pretrained : String → PretrainedData)
    (query_model_name_or_path : String)
    (title_model_name_or_path : Option String)
    (share_parameters : Bool) (dropout : Option ℚ) (use_cross_batch : Bool) :
    ErnieDualEncoder :=
  let queryEnc := ErnieEncoder.from_pretrained
    (pretrained query_model_name_or_path)
  if share_parameters then
    { heap := [queryEnc], query_ernie := some 0, title_ernie := some 0,
      use_cross_batch := use_cross_batch,
      dropout := dropout.getD (1 / 10), rank := none, training := true }
  else
    match title_model_name_or_path with
    | some t =>
      { heap := [queryEnc, ErnieEncoder.from_pretrained (pretrained t)],
        query_ernie := some 0, title_ernie := some 1,
        use_cross_batch := use_cross_batch,
        dropout := dropout.getD (1 / 10), rank := none, training := true }
    | none =>
      { heap := [queryEnc], query_ernie := some 0, title_ernie := none,
        use_cross_batch := use_cross_batch,
        dropout := dropout.getD (1 / 10), rank := none, training := true }

/-- Dereference an encoder reference against the heap. -/
def ErnieDualEncoder.encoderAt (m : ErnieDualEncoder) (r : Option Nat) :
    Option ErnieEncoder :=
  match r with
  | none => none
  | some i => m.heap.get? i

/-- The encoder object that `self.query_ernie` currently refers to. -/
def ErnieDualEncoder.queryEncoder (m : ErnieDualEncoder) :
    Option ErnieEncoder :=
  m.encoderAt m.query_ernie

/-- The encoder object that `self.title_ernie` currently refers to. -/
def ErnieDualEncoder.titleEncoder (m : ErnieDualEncoder) :
    Option ErnieEncoder :=
  m.encoderAt m.title_ernie

/-- In-place mutation of the encoder object stored at heap cell `i` (e.g.
assigning new weights to that tower): every reference to cell `i` observes
the update. -/
def ErnieDualEncoder.setEncoderAt (m : ErnieDualEncoder) (i : Nat)
    (e : ErnieEncoder) : ErnieDualEncoder :=
  { m with heap := m.heap.set i e }

/-- External code assigning the `rank` attribute (`model.rank = r`), which
the class itself never does. -/
def ErnieDualEncoder.setRank (m : ErnieDualEncoder) (r : Int) :
    ErnieDualEncoder :=
  { m with rank := some r }

/-- `self.eval()`: switches the layer (and its sublayers) out of training
mode. -/
def ErnieDualEncoder.evalMode (m : ErnieDualEncoder) : ErnieDualEncoder :=
  { m with training := false }

/-- The message of the assertion in `get_pooled_embedding`. -/
def pooledAssertMsg : String :=
  "Please check whether your parameter for `is_query` are consistent with DualEncoder initialization."

/-- The message of the attribute lookup error raised when `forward` reads the
never-assigned `self.rank`. -/
def rankAttrMsg : String :=
  "ErnieDualEncoder object has no attribute rank"

/-- `get_pooled_embedding`: asserts that the requested side has an encoder
(`self.title_ernie` is an object or None, so its Python truthiness is
`isSome`), then runs the query or the title encoder on the inputs.
`gradEnabled` is the ambient `paddle.no_grad()` context.  References built by
`init` always point into the heap, so the defensive `runtimeError` branches
are unreachable for states built by `init`. -/
def ErnieDualEncoder.get_pooled_embedding (m : ErnieDualEncoder)
    (gradEnabled : Bool) (input_ids : Tensor2)
    (token_type_ids position_ids attention_mask : Option Tensor2)
    (is_query : Bool) : Except PyError Tensor2 :=
  if !((is_query && m.query_ernie.isSome) ||
       (!is_query && m.title_ernie.isSome)) then
    Except.error (PyError.assertionError pooledAssertMsg)
  else if is_query then
    match m.queryEncoder with
    | some enc => enc.forward ⟨m.training, gradEnabled⟩ input_ids
        token_type_ids position_ids attention_mask
    | none => Except.error (PyError.runtimeError "dangling reference")
  else
    match m.titleEncoder with
    | some enc => enc.forward ⟨m.training, gradEnabled⟩ input_ids
        token_type_ids position_ids attention_mask
    | none => Except.error (PyError.runtimeError "dangling reference")

/-- `get_semantic_embedding`: switches to eval mode, then, inside
`paddle.no_grad()`, yields the pooled embedding (query side, the `is_query`
default) of each `(input_ids, token_type_ids)` batch of the data loader, in
order.  The generator is modelled as the list of the yielded computations;
each item is a function of its own batch only. -/
def ErnieDualEncoder.get_semantic_embedding (m : ErnieDualEncoder)
    (data_loader : List (Tensor2 × Tensor2)) :
    List (Except PyError Tensor2) :=
  let mEval := m.evalMode
  data_loader.map (fun batch_data =>
    ErnieDualEncoder.get_pooled_embedding mEval false batch_data.1
      (some batch_data.2) none none true)

/-- The dot product of two vectors. -/
def dotInt (a b : List Int) : Int :=
  (List.zipWith (fun x y => x * y) a b).sum

/-- Elementwise product of two 2-D tensors of equal shape. -/
def paddleMul2 (a b : Tensor2) : Tensor2 :=
  List.zipWith (fun r s => List.zipWith (fun x y => x * y) r s) a b

/-- `paddle.sum(t, axis=-1)` on a 2-D tensor: sum each row. -/
def paddleSumLast (t : Tensor2) : Tensor1 :=
  t.map List.sum

/-- `paddle.dot` on 2-D tensors: the per-row dot product. -/
def paddleDot (a b : Tensor2) : Tensor1 :=
  List.zipWith dotInt a b

/-- `paddle.matmul(a, b, transpose_y=True)` on 2-D tensors. -/
def paddleMatmulT (a b : Tensor2) : Tensor2 :=
  a.map (fun r => b.map (fun c => dotInt r c))

/-- `paddle.arange(start, stop, dtype=int64)`. -/
def arangeInt (start stop : Int) : List Int :=
  (List.range (stop - start).toNat).map (fun (i : Nat) => start + (i : Int))

/-- `cosine_sim`: pooled query embedding (query tower), pooled title embedding
(title tower, `is_query=False`), then `paddle.sum(q * t, axis=-1)`. -/
def ErnieDualEncoder.cosine_sim (m : ErnieDualEncoder) (gradEnabled : Bool)
    (query_input_ids title_input_ids : Tensor2)
    (query_token_type_ids query_position_ids query_attention_mask :
      Option Tensor2)
    (title_token_type_ids title_position_ids title_attention_mask :
      Option Tensor2) : Except PyError Tensor1 :=
  match ErnieDualEncoder.get_pooled_embedding m gradEnabled query_input_ids
      query_token_type_ids query_position_ids query_attention_mask true with
  | Except.error e => Except.error e
  | Except.ok query_cls_embedding =>
    match ErnieDualEncoder.get_pooled_embedding m gradEnabled title_input_ids
        title_token_type_ids title_position_ids title_attention_mask false with
    | Except.error e => Except.error e
    | Except.ok title_cls_embedding =>
      Except.ok
        (paddleSumLast (paddleMul2 query_cls_embedding title_cls_embedding))

/-- A scored value stored in the output dict: a 1-D tensor, a 2-D tensor, or
a scalar (loss / accuracy). -/
inductive PValue where
  | t1 (v : Tensor1)
  | t2 (v : Tensor2)
  | scalar (v : ℚ)
deriving Repr, DecidableEq

/-- The output dict of `forward`, as an ordered list of key/value pairs. -/
abbrev Outputs := List (String × PValue)

/-- The external operations `forward` uses but does not define:
`paddle.distributed.all_gather` (the per-rank tensors it appends),
`F.cross_entropy` and `paddle.metric.accuracy` (floating-point reductions of
the logits and the integer labels). -/
structure Env where
  all_gather : Tensor2 → List Tensor2
  cross_entropy : Tensor2 → Tensor2 → ℚ
  accuracy : Tensor2 → Tensor2 → ℚ

/-- The training-mode label tensor before reshape:
`paddle.arange(batch_size * rank * 2, batch_size * (rank * 2 + 1))`. -/
def trainingLabels (batch_size : Nat) (rank : Int) : List Int :=
  arangeInt ((batch_size : Int) * rank * 2)
    ((batch_size : Int) * (rank * 2 + 1))

/-- `ErnieDualEncoder.forward`.  All three pooled embeddings are obtained
through `get_pooled_embedding` with `is_query` left at its default `True`
(the source passes only the four tensor arguments positionally).  Prediction
mode returns the probs / q_rep / p_rep dict; training mode optionally
cross-batch-gathers the concatenated title embeddings, multiplies, reads the
(possibly never assigned) `self.rank` attribute to build the labels, and
returns the loss / accuracy dict. -/
def ErnieDualEncoder.forward (env : Env) (m : ErnieDualEncoder)
    (query_input_ids pos_title_input_ids neg_title_input_ids : Tensor2)
    (is_prediction : Bool)
    (query_token_type_ids query_position_ids query_attention_mask :
      Option Tensor2)
    (pos_title_token_type_ids pos_title_position_ids
      pos_title_attention_mask : Option Tensor2)
    (neg_title_token_type_ids neg_title_position_ids
      neg_title_attention_mask : Option Tensor2) :
    Except PyError Outputs :=
  match ErnieDualEncoder.get_pooled_embedding m true query_input_ids
      query_token_type_ids query_position_ids query_attention_mask true with
  | Except.error e => Except.error e
  | Except.ok query_cls_embedding =>
    match ErnieDualEncoder.get_pooled_embedding m true pos_title_input_ids
        pos_title_token_type_ids pos_title_position_ids
        pos_title_attention_mask true with
    | Except.error e => Except.error e
    | Except.ok pos_title_cls_embedding =>
      match ErnieDualEncoder.get_pooled_embedding m true neg_title_input_ids
          neg_title_token_type_ids neg_title_position_ids
          neg_title_attention_mask true with
      | Except.error e => Except.error e
      | Except.ok neg_title_cls_embedding =>
        let all_title_cls_embedding :=
          pos_title_cls_embedding ++ neg_title_cls_embedding
        if is_prediction then
          let logits := paddleDot query_cls_embedding pos_title_cls_embedding
          Except.ok [("probs", PValue.t1 logits),
                     ("q_rep", PValue.t2 query_cls_embedding),
                     ("p_rep", PValue.t2 pos_title_cls_embedding)]
        else
          let all_title :=
            if m.use_cross_batch then
              (env.all_gather all_title_cls_embedding).flatten
            else all_title_cls_embedding
          let logits := paddleMatmulT query_cls_embedding all_title
          let batch_size := query_cls_embedding.length
          match m.rank with
          | none => Except.error (PyError.attributeError rankAttrMsg)
          | some rank =>
            let labels := (trainingLabels batch_size rank).map (fun x => [x])
            let accuracy := env.accuracy logits labels
            let loss := env.cross_entropy logits labels
            Except.ok [("loss", PValue.scalar loss),
                       ("accuracy", PValue.scalar accuracy)]

/-! ### Concrete fixtures used by witnesses and counterexample evaluations -/

/-- A backbone whose pooled output is the constant matrix `rows` (each batch
row gets a one-token sequence holding that row). -/
def vecErnie (rows : Tensor2) : Ernie :=
  ⟨fun _ _ _ _ _ => Except.ok (rows.map (fun r => [r]), rows)⟩

/-- Checkpoint data around `vecErnie`, with a LayerNorm whose checkpoint
epsilon is `1e-3` (so the `init_weights` override is observable). -/
def vecData (rows : Tensor2) : PretrainedData :=
  ⟨vecErnie rows, [Sublayer.layerNorm (1 / 1000), Sublayer.other "linear"]⟩

/-- A pretrained lookup with distinct query and title checkpoints. -/
def twoTowerPretrained (qRows tRows : Tensor2) : String → PretrainedData :=
  fun name => if name = "query-model" then vecData qRows else vecData tRows

/-- A dual encoder with separate query and title towers whose pooled outputs
are the constants `qRows` and `tRows`. -/
def twoTowerModel (qRows tRows : Tensor2) : ErnieDualEncoder :=
  ErnieDualEncoder.init (twoTowerPretrained qRows tRows) "query-model"
    (some "title-model") false none false

/-- A backbone that raises on the input `bad` and otherwise pools to `rows`. -/
def failOnErnie (bad rows : Tensor2) : Ernie :=
  ⟨fun _ ids _ _ _ =>
    if ids = bad then Except.error (PyError.runtimeError "invalid input")
    else Except.ok (rows.map (fun r => [r]), rows)⟩

/-- A single-tower dual encoder whose backbone raises on input `[[99]]`. -/
def failModel : ErnieDualEncoder :=
  ErnieDualEncoder.init (fun _ => ⟨failOnErnie [[99]] [[5]], []⟩)
    "query-model" none false none false

/-- A dual encoder built with no title model and `share_parameters=False`:
its title reference is None. -/
def noTitleModel : ErnieDualEncoder :=
  ErnieDualEncoder.init (fun _ => vecData [[5]]) "query-model" none false
    none false

/-- A dual encoder built with `share_parameters=True`. -/
def sharedModel : ErnieDualEncoder :=
  ErnieDualEncoder.init (fun _ => vecData [[5]]) "query-model" none true
    none false

/-- A replacement encoder object used to observe mutation through aliases. -/
def encNine : ErnieEncoder :=
  { ernie := vecErnie [[9]], sublayers := [] }

/-- A trivial environment (single-process gather, zero losses). -/
def env0 : Env :=
  ⟨fun t => [t], fun _ _ => 0, fun _ _ => 0⟩

/-- An environment whose loss and accuracy discriminate on the logits value
`[[1, 1]]`, making the logits observable through the training output. -/
def envDisc : Env :=
  ⟨fun t => [t],
   fun logits _ => if logits = [[1, 1]] then 7 else 0,
   fun logits _ => if logits = [[1, 1]] then 1 else 0⟩

/-! ### Shared helper lemmas -/

/-- Row-summing the elementwise product is the row-wise dot product. -/
theorem paddleSumLast_paddleMul2 (q t : Tensor2) :
    paddleSumLast (paddleMul2 q t) = List.zipWith dotInt q t := by
  simp only [paddleSumLast, paddleMul2, List.map_zipWith]
  rfl

/-- Indexing a `zipWith dotInt` at a position inside both lists. -/
theorem zipWith_dotInt_getD (q t : Tensor2) (i : Nat) (hq : i < q.length)
    (ht : i < t.length) :
    (List.zipWith dotInt q t).getD i 0 = dotInt (q.getD i []) (t.getD i []) := by
  induction q generalizing t i with
  | nil => simp at hq
  | cons a as ih =>
    cases t with
    | nil => simp at ht
    | cons b bs =>
      cases i with
      | zero => simp
      | succ j =>
        simp only [List.zipWith_cons_cons, List.getD_cons_succ]
        exact ih bs j (by simpa using hq) (by simpa using ht)

/-- Length of an integer range starting at `s` and stopping at `s + n`. -/
theorem arangeInt_length (s : Int) (n : Nat) :
    (arangeInt s (s + n)).length = n := by
  rw [arangeInt, List.length_map, List.length_range, add_sub_cancel_left,
    Int.toNat_natCast]

/-- The `i`-th element of an integer range starting at `s`. -/
theorem arangeInt_getD (s : Int) (n i : Nat) (hi : i < n) :
    (arangeInt s (s + n)).getD i 0 = s + i := by
  rw [List.getD_eq_getElem _ _ (by rw [arangeInt_length s n]; exact hi)]
  simp only [arangeInt, List.getElem_map, List.getElem_range]

/-- Every LayerNorm sublayer of a freshly constructed `ErnieEncoder` carries
the fixed epsilon. -/
theorem layerNorm_mem_from_pretrained (data : PretrainedData) (eps : ℚ)
    (h : Sublayer.layerNorm eps ∈
      (ErnieEncoder.from_pretrained data).sublayers) :
    eps = layerNormFixedEpsilon := by
  simp only [ErnieEncoder.from_pretrained, ErnieEncoder.construct,
    List.mem_map] at h
  obtain ⟨l, _, hl⟩ := h
  cases l with
  | layerNorm e =>
    simp [ErnieEncoder.init_weights] at hl
    exact hl.symm
  | other tag => simp [ErnieEncoder.init_weights] at hl

/-! ### Claim theorems -/

/-- C2: in training mode, the labels tensor of process rank `r` with local
batch size `B` is the integer range `[2*B*r, 2*B*r + B)`: it has one label
per local query, the label of query `i` is `2*B*r + i`, and on rank 0 the
labels are `[0, 1, ..., B-1]`. -/
theorem trainingLabels_spec (B : Nat) (r : Int) :
    (trainingLabels B r).length = B ∧
    (∀ i : Nat, i < B →
      (trainingLabels B r).getD i 0 = 2 * (B : Int) * r + (i : Int)) ∧
    trainingLabels B 0 = (List.range B).map (fun (i : Nat) => (i : Int)) := by
  have hTL : trainingLabels B r =
      arangeInt ((B : Int) * r * 2) ((B : Int) * r * 2 + (B : Nat)) := by
    rw [trainingLabels, show (B : Int) * (r * 2 + 1) =
      (B : Int) * r * 2 + (B : Nat) by ring]
  refine ⟨?_, ?_, ?_⟩
  · rw [hTL]; exact arangeInt_length _ B
  · intro i hi
    rw [hTL, arangeInt_getD _ B i hi]
    ring
  · simp [trainingLabels, arangeInt]

/-- C2 witness: with `B = 3` and `r = 1` the labels have length 3 and the
label of query 1 is `2*3*1 + 1 = 7`. -/
theorem trainingLabels_spec_witness :
    (trainingLabels 3 1).length = 3 ∧ (trainingLabels 3 1).getD 1 0 = 7 := by
  refine ⟨(trainingLabels_spec 3 1).1, ?_⟩
  have h := (trainingLabels_spec 3 1).2.1 1 (by norm_num)
  norm_num at h
  exact h

/-- C3: `get_pooled_embedding` fails fast with the assertion error carrying
the inconsistency message whenever the requested side has no encoder
(query side requested with no query encoder, or title side requested with no
title encoder); and a dual encoder constructed with `share_parameters=False`
and no title model identifier has no title encoder, so its title-side call
raises exactly that assertion error. -/
theorem get_pooled_embedding_precondition :
    (∀ (m : ErnieDualEncoder) (ge : Bool) (ii : Tensor2)
       (tt pp am : Option Tensor2) (isq : Bool),
       ((isq = true ∧ m.query_ernie = none) ∨
        (isq = false ∧ m.title_ernie = none)) →
       ErnieDualEncoder.get_pooled_embedding m ge ii tt pp am isq =
         Except.error (PyError.assertionError pooledAssertMsg)) ∧
    (∀ (pretrained : String → PretrainedData) (qn : String) (d : Option ℚ)
       (u : Bool),
       (ErnieDualEncoder.init pretrained qn none false d u).title_ernie =
           none ∧
       ∀ (ge : Bool) (ii : Tensor2) (tt pp am : Option Tensor2),
         ErnieDualEncoder.get_pooled_embedding
             (ErnieDualEncoder.init pretrained qn none false d u) ge ii tt pp
             am false =
           Except.error (PyError.assertionError pooledAssertMsg)) := by
  have main : ∀ (m : ErnieDualEncoder) (ge : Bool) (ii : Tensor2)
      (tt pp am : Option Tensor2) (isq : Bool),
      ((isq = true ∧ m.query_ernie = none) ∨
       (isq = false ∧ m.title_ernie = none)) →
      ErnieDualEncoder.get_pooled_embedding m ge ii tt pp am isq =
        Except.error (PyError.assertionError pooledAssertMsg) := by
    rintro m ge ii tt pp am isq (⟨hq, hnone⟩ | ⟨hq, hnone⟩) <;> subst hq <;>
      simp [ErnieDualEncoder.get_pooled_embedding, hnone]
  refine ⟨main, ?_⟩
  intro pretrained qn d u
  have htitle : (ErnieDualEncoder.init pretrained qn none false d u).title_ernie
      = none := by
    simp [ErnieDualEncoder.init]
  exact ⟨htitle, fun ge ii tt pp am =>
    main _ ge ii tt pp am false (Or.inr ⟨rfl, htitle⟩)⟩

/-- C3 witness: the concretely constructed `noTitleModel` has no title
encoder and its title-side pooled-embedding call raises the assertion. -/
theorem get_pooled_embedding_precondition_witness :
    ErnieDualEncoder.get_pooled_embedding noTitleModel true [[1]] none none
      none false = Except.error (PyError.assertionError pooledAssertMsg) :=
  get_pooled_embedding_precondition.1 noTitleModel true [[1]] none none none
    false (Or.inr ⟨rfl, rfl⟩)

/-- C9: `get_semantic_embedding` over an empty data loader yields nothing;
over `N` batches it yields exactly `N` pooled embedding batches, and the
`i`-th yielded item is the query-side (`is_query=True`) pooled embedding of
the `i`-th batch alone, computed on the eval-mode state inside
`paddle.no_grad()` (training flag false, gradients disabled). -/
theorem get_semantic_embedding_spec :
    (∀ m : ErnieDualEncoder, ErnieDualEncoder.get_semantic_embedding m [] = []) ∧
    (∀ (m : ErnieDualEncoder) (dl : List (Tensor2 × Tensor2)),
      (ErnieDualEncoder.get_semantic_embedding m dl).length = dl.length) ∧
    (∀ (m : ErnieDualEncoder) (dl : List (Tensor2 × Tensor2)) (i : Nat),
      (ErnieDualEncoder.get_semantic_embedding m dl)[i]? =
        dl[i]?.map (fun batch_data =>
          ErnieDualEncoder.get_pooled_embedding m.evalMode false batch_data.1
            (some batch_data.2) none none true)) ∧
    (∀ m : ErnieDualEncoder, (ErnieDualEncoder.evalMode m).training = false) := by
  refine ⟨?_, ?_, ?_, ?_⟩ <;> intros <;>
    simp [ErnieDualEncoder.get_semantic_embedding,
      ErnieDualEncoder.evalMode, List.getElem?_map]

/-- C10: after construction, every LayerNorm sublayer of an `ErnieEncoder`
carries epsilon `1e-5`, whatever epsilon the checkpoint configuration held;
consequently every encoder owned by a freshly constructed `ErnieDualEncoder`
has only LayerNorm sublayers with epsilon `1e-5`. -/
theorem encoder_layernorm_epsilon :
    (∀ (data : PretrainedData) (eps : ℚ),
      Sublayer.layerNorm eps ∈ (ErnieEncoder.from_pretrained data).sublayers →
      eps = layerNormFixedEpsilon) ∧
    (∀ (pretrained : String → PretrainedData) (qn : String)
       (tn : Option String) (sp : Bool) (d : Option ℚ) (u : Bool)
       (enc : ErnieEncoder) (eps : ℚ),
      enc ∈ (ErnieDualEncoder.init pretrained qn tn sp d u).heap →
      Sublayer.layerNorm eps ∈ enc.sublayers →
      eps = layerNormFixedEpsilon) := by
  refine ⟨layerNorm_mem_from_pretrained, ?_⟩
  intro pretrained qn tn sp d u enc eps hheap hmem
  cases sp with
  | true =>
    simp [ErnieDualEncoder.init] at hheap
    subst hheap
    exact layerNorm_mem_from_pretrained _ _ hmem
  | false =>
    cases tn with
    | none =>
      simp [ErnieDualEncoder.init] at hheap
      subst hheap
      exact layerNorm_mem_from_pretrained _ _ hmem
    | some t =>
      simp [ErnieDualEncoder.init] at hheap
      rcases hheap with hheap | hheap <;> subst hheap <;>
        exact layerNorm_mem_from_pretrained _ _ hmem

/-- C10 witness: the checkpoint of `vecData` holds a LayerNorm with epsilon
`1e-3`, yet after construction the only LayerNorm sublayer carries the fixed
epsilon, and the theorem applies to it. -/
theorem encoder_layernorm_epsilon_witness :
    Sublayer.layerNorm layerNormFixedEpsilon ∈
      (ErnieEncoder.from_pretrained (vecData [[5]])).sublayers ∧
    layerNormFixedEpsilon = layerNormFixedEpsilon :=
  ⟨by simp [ErnieEncoder.from_pretrained, ErnieEncoder.construct, vecData,
      ErnieEncoder.init_weights],
   encoder_layernorm_epsilon.1 (vecData [[5]]) layerNormFixedEpsilon
    (by simp [ErnieEncoder.from_pretrained, ErnieEncoder.construct, vecData,
      ErnieEncoder.init_weights])⟩

/-- C4: in prediction mode, whenever the three pooled-embedding computations
of `forward` succeed with values `q`, `p`, `nv`, the returned output is
exactly the dict `{probs, q_rep, p_rep}` where `probs` is the per-row dot
product of the query and positive-title embeddings; no `loss` key is present
and the result does not depend on the loss environment at all (the `env`
on the left is universally quantified and absent from the right-hand side). -/
theorem forward_prediction_outputs (env : Env) (m : ErnieDualEncoder)
    (qi pi ni : Tensor2)
    (qtt qpp qam ptt ppp pam ntt npp nam : Option Tensor2) (q p nv : Tensor2)
    (hq : ErnieDualEncoder.get_pooled_embedding m true qi qtt qpp qam true =
      Except.ok q)
    (hp : ErnieDualEncoder.get_pooled_embedding m true pi ptt ppp pam true =
      Except.ok p)
    (hn : ErnieDualEncoder.get_pooled_embedding m true ni ntt npp nam true =
      Except.ok nv) :
    ErnieDualEncoder.forward env m qi pi ni true qtt qpp qam ptt ppp pam ntt
        npp nam =
      Except.ok [("probs", PValue.t1 (paddleDot q p)),
                 ("q_rep", PValue.t2 q), ("p_rep", PValue.t2 p)] ∧
    ∀ v : PValue,
      ("loss", v) ∉ [("probs", PValue.t1 (paddleDot q p)),
                     ("q_rep", PValue.t2 q), ("p_rep", PValue.t2 p)] := by
  refine ⟨?_, ?_⟩
  · simp [ErnieDualEncoder.forward, hq, hp, hn]
  · intro v
    simp

/-- C4 witness: concrete two-tower model, prediction mode, concrete inputs. -/
theorem forward_prediction_outputs_witness :
    ErnieDualEncoder.forward env0 (twoTowerModel [[1]] [[2]]) [[3]] [[4]]
        [[5]] true none none none none none none none none none =
      Except.ok [("probs", PValue.t1 (paddleDot [[1]] [[1]])),
                 ("q_rep", PValue.t2 [[1]]), ("p_rep", PValue.t2 [[1]])] ∧
    ("loss", PValue.scalar 0) ∉
      [("probs", PValue.t1 (paddleDot [[1]] [[1]])),
       ("q_rep", PValue.t2 [[1]]), ("p_rep", PValue.t2 [[1]])] :=
  ⟨(forward_prediction_outputs env0 (twoTowerModel [[1]] [[2]]) [[3]] [[4]]
      [[5]] none none none none none none none none none [[1]] [[1]] [[1]]
      rfl rfl rfl).1,
   (forward_prediction_outputs env0 (twoTowerModel [[1]] [[2]]) [[3]] [[4]]
      [[5]] none none none none none none none none none [[1]] [[1]] [[1]]
      rfl rfl rfl).2 (PValue.scalar 0)⟩

/-- C8: even in prediction mode, `forward` invokes the encoder on the
negative-title inputs before the prediction branch: when the query and
positive-title embeddings succeed but the negative-title pooled-embedding
computation raises, prediction-mode `forward` propagates exactly that error
instead of returning the `{probs, q_rep, p_rep}` output. -/
theorem forward_prediction_computes_neg (env : Env) (m : ErnieDualEncoder)
    (qi pi ni : Tensor2)
    (qtt qpp qam ptt ppp pam ntt npp nam : Option Tensor2) (q p : Tensor2)
    (e : PyError)
    (hq : ErnieDualEncoder.get_pooled_embedding m true qi qtt qpp qam true =
      Except.ok q)
    (hp : ErnieDualEncoder.get_pooled_embedding m true pi ptt ppp pam true =
      Except.ok p)
    (hn : ErnieDualEncoder.get_pooled_embedding m true ni ntt npp nam true =
      Except.error e) :
    ErnieDualEncoder.forward env m qi pi ni true qtt qpp qam ptt ppp pam ntt
        npp nam = Except.error e := by
  simp [ErnieDualEncoder.forward, hq, hp, hn]

/-- C8 witness: a backbone that raises on input `[[99]]`; query and positive
title succeed, and prediction-mode `forward` fails with the backbone error
raised on the negative-title inputs. -/
theorem forward_prediction_computes_neg_witness :
    ErnieDualEncoder.forward env0 failModel [[1]] [[2]] [[99]] true none none
        none none none none none none none =
      Except.error (PyError.runtimeError "invalid input") :=
  forward_prediction_computes_neg env0 failModel [[1]] [[2]] [[99]] none none
    none none none none none none none [[5]] [[5]]
    (PyError.runtimeError "invalid input") rfl rfl rfl

/-- C7: the constructor never assigns `rank`, so on every freshly
constructed dual encoder (whatever the constructor arguments, in particular
whatever `use_cross_batch`), a training-mode `forward` call whose three
embedding computations succeed fails with the attribute-lookup error on
`rank` before any loss is produced. -/
theorem forward_training_missing_rank (pretrained : String → PretrainedData)
    (qn : String) (tn : Option String) (sp : Bool) (d : Option ℚ) (u : Bool)
    (env : Env) (m : ErnieDualEncoder)
    (hm : m = ErnieDualEncoder.init pretrained qn tn sp d u)
    (qi pi ni : Tensor2)
    (qtt qpp qam ptt ppp pam ntt npp nam : Option Tensor2) (q p nv : Tensor2)
    (hq : ErnieDualEncoder.get_pooled_embedding m true qi qtt qpp qam true =
      Except.ok q)
    (hp : ErnieDualEncoder.get_pooled_embedding m true pi ptt ppp pam true =
      Except.ok p)
    (hn : ErnieDualEncoder.get_pooled_embedding m true ni ntt npp nam true =
      Except.ok nv) :
    m.rank = none ∧
    ErnieDualEncoder.forward env m qi pi ni false qtt qpp qam ptt ppp pam ntt
        npp nam = Except.error (PyError.attributeError rankAttrMsg) := by
  have hrank : m.rank = none := by
    subst hm
    cases sp with
    | true => simp [ErnieDualEncoder.init]
    | false =>
      cases tn with
      | none => simp [ErnieDualEncoder.init]
      | some t => simp [ErnieDualEncoder.init]
  exact ⟨hrank, by simp [ErnieDualEncoder.forward, hq, hp, hn, hrank]⟩

/-- C7 witness: the concrete `noTitleModel` has no `rank` attribute and its
training-mode `forward` raises the attribute-lookup error. -/
theorem forward_training_missing_rank_witness :
    noTitleModel.rank = none ∧
    ErnieDualEncoder.forward env0 noTitleModel [[1]] [[2]] [[3]] false none
        none none none none none none none none =
      Except.error (PyError.attributeError rankAttrMsg) :=
  forward_training_missing_rank (fun _ => vecData [[5]]) "query-model" none
    false none false env0 noTitleModel rfl [[1]] [[2]] [[3]] none none none
    none none none none none none [[5]] [[5]] [[5]] rfl rfl rfl

/-- C5: constructing with `share_parameters=True` makes `self.title_ernie`
the very same reference as `self.query_ernie` (both point at heap cell 0),
so mutating the encoder object stored there is observed through both the
query tower and the title tower. -/
theorem share_parameters_alias (pretrained : String → PretrainedData)
    (qn : String) (tn : Option String) (d : Option ℚ) (u : Bool)
    (m : ErnieDualEncoder)
    (hm : m = ErnieDualEncoder.init pretrained qn tn true d u) :
    m.title_ernie = m.query_ernie ∧ m.query_ernie = some 0 ∧
    ∀ e : ErnieEncoder,
      (m.setEncoderAt 0 e).queryEncoder = some e ∧
      (m.setEncoderAt 0 e).titleEncoder = some e := by
  subst hm
  refine ⟨by simp [ErnieDualEncoder.init], by simp [ErnieDualEncoder.init],
    fun e => ⟨?_, ?_⟩⟩ <;>
    simp [ErnieDualEncoder.init, ErnieDualEncoder.setEncoderAt,
      ErnieDualEncoder.queryEncoder, ErnieDualEncoder.titleEncoder,
      ErnieDualEncoder.encoderAt]

/-- C5 witness: on the concrete `sharedModel`, the references coincide, and
replacing the object in the shared cell is observed through the title tower
and the query tower alike. -/
theorem share_parameters_alias_witness :
    sharedModel.title_ernie = sharedModel.query_ernie ∧
    (sharedModel.setEncoderAt 0 encNine).titleEncoder = some encNine ∧
    (sharedModel.setEncoderAt 0 encNine).queryEncoder = some encNine := by
  have h := share_parameters_alias (fun _ => vecData [[5]]) "query-model"
    none none false sharedModel rfl
  exact ⟨h.1, (h.2.2 encNine).2, (h.2.2 encNine).1⟩

/-- C6: whenever the two pooled-embedding computations of `cosine_sim`
succeed with batches `q` and `t` of common batch size `n`, `cosine_sim`
returns the length-`n` sequence whose `i`-th value is the raw dot product of
the `i`-th query embedding and the `i`-th title embedding. -/
theorem cosine_sim_rowwise_dot (m : ErnieDualEncoder) (ge : Bool)
    (qi ti : Tensor2) (qtt qpp qam ttt tpp tam : Option Tensor2)
    (q t : Tensor2) (n : Nat)
    (hq : ErnieDualEncoder.get_pooled_embedding m ge qi qtt qpp qam true =
      Except.ok q)
    (ht : ErnieDualEncoder.get_pooled_embedding m ge ti ttt tpp tam false =
      Except.ok t)
    (hqn : q.length = n) (htn : t.length = n) :
    ErnieDualEncoder.cosine_sim m ge qi ti qtt qpp qam ttt tpp tam =
      Except.ok (List.zipWith dotInt q t) ∧
    (List.zipWith dotInt q t).length = n ∧
    ∀ i : Nat, i < n → (List.zipWith dotInt q t).getD i 0 =
      dotInt (q.getD i []) (t.getD i []) := by
  refine ⟨?_, ?_, ?_⟩
  · simp [ErnieDualEncoder.cosine_sim, hq, ht, paddleSumLast_paddleMul2]
  · simp [List.length_zipWith, hqn, htn]
  · intro i hi
    exact zipWith_dotInt_getD q t i (hqn ▸ hi) (htn ▸ hi)

/-- C6 witness: towers pooling to `[[1,0,0],[1,1,0]]` and
`[[0,1,0],[1,1,0]]` give similarities `[0, 2]`, matching the hand-computed
dot products of the spec. -/
theorem cosine_sim_rowwise_dot_witness :
    ErnieDualEncoder.cosine_sim
        (twoTowerModel [[1, 0, 0], [1, 1, 0]] [[0, 1, 0], [1, 1, 0]]) true
        [[7]] [[8]] none none none none none none =
      Except.ok (List.zipWith dotInt [[1, 0, 0], [1, 1, 0]]
        [[0, 1, 0], [1, 1, 0]]) ∧
    List.zipWith dotInt [[1, 0, 0], [1, 1, 0]] [[0, 1, 0], [1, 1, 0]] =
      [0, 2] :=
  ⟨(cosine_sim_rowwise_dot
      (twoTowerModel [[1, 0, 0], [1, 1, 0]] [[0, 1, 0], [1, 1, 0]]) true
      [[7]] [[8]] none none none none none none [[1, 0, 0], [1, 1, 0]]
      [[0, 1, 0], [1, 1, 0]] 2 rfl rfl rfl rfl).1,
   by decide⟩

/-- C1: evaluation of training-mode `forward` at a dual encoder whose two
towers differ (query tower pools to `[[1]]`, title tower to `[[2]]`), with
`rank = 0` and a loss environment that discriminates on the logits value.
All three `get_pooled_embedding` calls inside `forward` leave `is_query` at
its default `True`, so the positive- and negative-title embeddings come from
the query tower: the logits are `[[1, 1]]` (observed as loss 7 / accuracy 1),
although the title tower pools the same positive-title inputs to `[[2]]`
(had the title tower been used, the logits would have been `[[2, 2]]`,
observed as loss 0).  Prediction mode exhibits the same three calls:
`p_rep` is the query-tower value `[[1]]`, not the title-tower value. -/
theorem forward_training_titles_from_query_tower :
    ErnieDualEncoder.forward envDisc ((twoTowerModel [[1]] [[2]]).setRank 0)
        [[3]] [[4]] [[5]] false none none none none none none none none
        none =
      Except.ok [("loss", PValue.scalar 7), ("accuracy", PValue.scalar 1)] ∧
    ErnieDualEncoder.get_pooled_embedding
        ((twoTowerModel [[1]] [[2]]).setRank 0) true [[4]] none none none
        false = Except.ok [[2]] ∧
    ErnieDualEncoder.forward envDisc ((twoTowerModel [[1]] [[2]]).setRank 0)
        [[3]] [[4]] [[5]] true none none none none none none none none
        none =
      Except.ok [("probs", PValue.t1 [1]), ("q_rep", PValue.t2 [[1]]),
                 ("p_rep", PValue.t2 [[1]])] ∧
    ([[1]] : Tensor2) ≠ [[2]] := by
  refine ⟨rfl, rfl, rfl, by decide⟩
